import Mathlib

/-
Verification development for the GrupoFWP audio-synthesis repository.

The modules embedded here are wavemaker.py (waveform library and the Wave
descriptor class), pyaudiowave.py (the PyAudioWave streaming class) and
wave.py (the frequency_sweep driver and its helpers).

Modelling conventions:
- Python floats used for times, frequencies and amplitudes are modelled as
  exact rationals; evaluated sample values live in the reals so that the
  transcendental sine is available.
- Python exceptions are modelled by an explicit error type through Except;
  a generator is modelled by the finite list of chunks it yields before it
  either finishes or raises, paired with the error it raises, if any.
- Print side effects (warnings) are not modelled; the display_warnings
  flags of the source only guard prints and are dropped.
-/

noncomputable section

/-- Python runtime errors raised by the embedded code: TypeError,
AttributeError and a bare Exception. -/
inductive PyError where
  | typeError
  | attributeError
  | exceptionError
  deriving DecidableEq

namespace Wavemaker

/-- Type of the waveform functions stored by wavemaker.given_waveform: they
receive the time vector and the frequency, and either return the evaluated
samples or raise a Python error. -/
abbrev WaveFn : Type := List ℚ → ℚ → Except PyError (List ℝ)

/-- wavemaker.create_sine: np.sin(2 * np.pi * time * freq), elementwise
over the time vector. -/
def create_sine : WaveFn :=
  fun time freq =>
    .ok (time.map (fun (t : ℚ) =>
      Real.sin (2 * Real.pi * (t : ℝ) * (freq : ℝ))))

/-- Value of scipy.signal.sawtooth at phase 2*pi*time*freq, written through
the fractional part p of time*freq: the wave rises from -1 to 1 while
p < width and falls back to -1 on the rest of the period. -/
def sawtooth_sample (p width : ℚ) : ℚ :=
  if p < width then 2 * p / width - 1 else 1 - 2 * (p - width) / (1 - width)

/-- wavemaker.create_ramps: scipy.signal.sawtooth(2*np.pi*time*freq,
type_of_ramp). The ramp-shape parameter is taken first so the remaining
arguments form a WaveFn. -/
def create_ramps (type_of_ramp : ℚ) : WaveFn :=
  fun time freq =>
    .ok (time.map (fun (t : ℚ) =>
      ((sawtooth_sample (Int.fract (t * freq)) type_of_ramp : ℚ) : ℝ)))

/-- wavemaker.create_sawtooth_up: create_ramps with type_of_ramp = 1. -/
def create_sawtooth_up : WaveFn := create_ramps 1

/-- wavemaker.create_sawtooth_down: create_ramps with type_of_ramp = 0. -/
def create_sawtooth_down : WaveFn := create_ramps 0

/-- wavemaker.create_triangular: create_ramps with type_of_ramp = 0.5. -/
def create_triangular : WaveFn := create_ramps (1 / 2)

/-- Value of scipy.signal.square at phase 2*pi*time*freq with duty cycle d,
written through the fractional part p of time*freq. -/
def square_sample (p d : ℚ) : ℚ := if p < d then 1 else -1

/-- wavemaker.create_square: scipy.signal.square(2*np.pi*time*freq,
dutycycle). Wave.evaluate never forwards extra arguments, so the duty
cycle always has its default value 0.5 in this development. -/
def create_square : WaveFn :=
  fun time freq =>
    .ok (time.map (fun (t : ℚ) =>
      ((square_sample (Int.fract (t * freq)) (1 / 2) : ℚ) : ℝ)))

/-- wavemaker.create_custom delegates to a caller-supplied custom_func
argument. Wave.evaluate calls self.waveform(time, self.frequency) without
forwarding the stored custom function, so the required custom_func
positional argument is missing and Python raises a TypeError. -/
def create_custom : WaveFn := fun _ _ => .error .typeError

/-- wavemaker.wrong_input raises a TypeError whenever it is called. -/
def wrong_input : WaveFn := fun _ _ => .error .typeError

/-- wavemaker.given_waveform: the switcher dictionary, with
switcher.get(input_waveform, wrong_input) for unknown keys. -/
def given_waveform (input_waveform : String) : WaveFn :=
  if input_waveform = "sine" then create_sine
  else if input_waveform = "sawtoothup" then create_sawtooth_up
  else if input_waveform = "sawtoothdown" then create_sawtooth_down
  else if input_waveform = "ramp" then create_sawtooth_up
  else if input_waveform = "sawtooth" then create_sawtooth_up
  else if input_waveform = "triangular" then create_triangular
  else if input_waveform = "square" then create_square
  else if input_waveform = "custom" then create_custom
  else wrong_input

/-- wavemaker.Wave: the wave descriptor object. The waveform field stores
the function returned by given_waveform, exactly as the Python constructor
does; customfunc stores the custom argument (which evaluate never uses). -/
structure Wave where
  frequency : ℚ
  amplitude : ℚ
  waveform : WaveFn
  customfunc : Option WaveFn

/-- wavemaker.Wave.__init__(waveform, frequency, amplitude, custom): the
constructor only stores its arguments; it performs no validation and
cannot raise. -/
def Wave.init (waveform : String) (frequency amplitude : ℚ)
    (custom : Option WaveFn) : Wave :=
  { frequency := frequency
    amplitude := amplitude
    waveform := given_waveform waveform
    customfunc := custom }

instance : Inhabited Wave := ⟨Wave.init "sine" 400 1 none⟩

/-- wavemaker.Wave.evaluate(time): self.waveform(time, self.frequency)
multiplied elementwise by self.amplitude. A raise inside the waveform
function propagates before the multiplication happens. -/
def Wave.evaluate (w : Wave) (time : List ℚ) : Except PyError (List ℝ) :=
  (w.waveform time w.frequency).map
    (fun ys => ys.map (fun (x : ℝ) => x * (w.amplitude : ℝ)))

end Wavemaker

open Wavemaker

/-- pyaudiowave.PyAudioWave.__init__: the playback parameters. Note that
the only attributes ever defined are sampling_rate, buffer_size and
nchannels. -/
structure PyAudioWave where
  sampling_rate : ℕ
  buffer_size : ℕ
  nchannels : ℕ

/-- pyaudiowave.PyAudioWave.create_time: np.linspace(0, period * ppc,
num = period * ppc * sampling_rate, endpoint=False). numpy converts the
floating num to an integer by truncation; with endpoint=False the i-th
point is stop * i / num. -/
def create_time (p : PyAudioWave) (w : Wave) (periods_per_chunk : ℤ) :
    List ℚ :=
  let period : ℚ := 1 / w.frequency
  let stop : ℚ := period * (periods_per_chunk : ℚ)
  let num : ℕ := (⌊stop * (p.sampling_rate : ℚ)⌋).toNat
  (List.range num).map (fun (i : ℕ) => stop * (i : ℚ) / (num : ℚ))

/-- np.transpose on a rectangular 2-D array: entry (i, c) of the result is
entry (c, i) of the argument. The embedding reads row c at column i with
getD; on the rectangular arrays produced by the source the default is
never reached, matching numpy exactly. -/
def np_transpose (signal : List (List ℝ)) : List (List ℝ) :=
  (List.range signal.headI.length).map
    (fun i => signal.map (fun row => row.getD i 0))

/-- pyaudiowave.PyAudioWave.encode: two-channel blocks are transposed with
np.transpose, then the array is flattened in row-major order and each
sample is narrowed by astype(np.float32) before serialization. The
elementwise float32 narrowing is the parameter narrow; the returned list
is the sequence of narrowed samples in the order they appear in the
encoded byte stream. -/
def encode (p : PyAudioWave) (narrow : ℝ → ℝ) (signal : List (List ℝ)) :
    List ℝ :=
  let signal2 := if p.nchannels = 2 then np_transpose signal else signal
  (signal2.flatten).map narrow

/-- Argument passed to resolve_nchannels and write_generator: either a
bare Wave object or a 2-tuple of Wave objects, distinguished in the source
by isinstance(wave, tuple). -/
inductive WaveArg where
  | single (w : Wave)
  | pair (w1 w2 : Wave)

/-- pyaudiowave.PyAudioWave.resolve_nchannels, returned tuples written as
lists. With nchannels == 1 only the non-tuple branch returns early, as a
1-tuple; a tuple argument falls through to the final return wave, so a
pair is returned unchanged. With nchannels == 2 a single wave is
duplicated and a pair falls through unchanged. The display_warnings
parameter only guards prints and is not modelled. -/
def resolve_nchannels (p : PyAudioWave) (wave : WaveArg) : List Wave :=
  if p.nchannels = 1 then
    match wave with
    | .single w => [w]
    | .pair w1 w2 => [w1, w2]
  else
    match wave with
    | .single w => [w, w]
    | .pair w1 w2 => [w1, w2]

/-- pyaudiowave.PyAudioWave.eval_wave: for one channel, the first wave is
evaluated and wrapped in a singleton list (np.transpose of a 1-D array is
the identity); otherwise every wave of the tuple is evaluated in order,
the first exception propagating. The rows of the result are the channels,
so its outer length is the channel count, not the sample count. -/
def eval_wave (p : PyAudioWave) (ws : List Wave) (time : List ℚ) :
    Except PyError (List (List ℝ)) :=
  if p.nchannels = 1 then
    (ws.headI.evaluate time).map (fun ys => [ys])
  else
    ws.mapM (fun w => w.evaluate time)

/-- pyaudiowave.PyAudioWave.yield_a_bit: yields signal[:, bs*i : bs*(i+1)]
for i in range(len(signal) // buffer_size). Because signal has shape
(nchannels, samples), len(signal) is the number of channels, so the range
is empty whenever buffer_size exceeds the channel count. -/
def yield_a_bit (p : PyAudioWave) (signal : List (List ℝ)) :
    List (List (List ℝ)) :=
  (List.range (signal.length / p.buffer_size)).map
    (fun i => signal.map (fun row =>
      (row.drop (p.buffer_size * i)).take p.buffer_size))

/-- pyaudiowave.PyAudioWave.write_generator, modelled as the list of
chunks the generator yields before it stops, paired with the Python error
it raises, if any.

With duration None, the first loop iteration yields the chunks of
yield_a_bit and then evaluates np.append((yield_signal[last_place:],
signal)), which passes a single tuple argument to np.append and raises
TypeError: the required values argument is missing.

With any bounded duration, the branch guard duration <
len(signal) / self.sampling_frequency is evaluated first, and the object
has no attribute sampling_frequency (only sampling_rate), so an
AttributeError is raised before anything is yielded. -/
def write_generator (p : PyAudioWave) (wave : WaveArg)
    (duration : Option ℚ) (buffers_per_array : ℕ) :
    List (List (List ℝ)) × Option PyError :=
  let ws := resolve_nchannels p wave
  let w0 := ws.headI
  let required_periods : ℤ :=
    ⌊(p.buffer_size : ℚ) * w0.frequency / (p.sampling_rate : ℚ)⌋ + 1
  let time := create_time p w0 (required_periods * (buffers_per_array : ℤ))
  match eval_wave p ws time with
  | .error e => ([], some e)
  | .ok signal =>
    match duration with
    | none => (yield_a_bit p signal, some PyError.typeError)
    | some _ => ([], some PyError.attributeError)

namespace WavePy

/-- wave.create_sine: identical formula to the wavemaker version. -/
def create_sine : WaveFn := Wavemaker.create_sine

/-- wave.create_ramps: identical formula to the wavemaker version. -/
def create_ramps (type_of_ramp : ℚ) : WaveFn :=
  Wavemaker.create_ramps type_of_ramp

/-- wave.create_sawtooth_up. -/
def create_sawtooth_up : WaveFn := create_ramps 1

/-- wave.create_sawtooth_down. -/
def create_sawtooth_down : WaveFn := create_ramps 0

/-- wave.create_triangular. -/
def create_triangular : WaveFn := create_ramps (1 / 2)

/-- wave.create_square: scipy.signal.square with its default duty cycle
of 0.5. -/
def create_square : WaveFn := Wavemaker.create_square

/-- wave.create_custom raises Exception("Not yet implemented."). -/
def create_custom : WaveFn := fun _ _ => .error .exceptionError

/-- wave.given_waveform: the switcher of wave.py. It has no "sawtooth"
key, and the default for unknown keys is a zero-argument lambda, so
calling it with (time, freq) raises a TypeError. -/
def given_waveform (input_waveform : String) : WaveFn :=
  if input_waveform = "sine" then create_sine
  else if input_waveform = "sawtoothup" then create_sawtooth_up
  else if input_waveform = "sawtoothdown" then create_sawtooth_down
  else if input_waveform = "ramp" then create_sawtooth_up
  else if input_waveform = "triangular" then create_triangular
  else if input_waveform = "square" then create_square
  else if input_waveform = "custom" then create_custom
  else fun _ _ => .error .typeError

/-- wave.function_creator(waveform, freq, duration, amp, samplig_freq):
time = np.arange(samplig_freq * duration) / samplig_freq, after which the
chosen waveform function is evaluated and scaled by amp. np.arange(x) for
a float x has ceil(x) entries (and none when x is not positive). -/
def function_creator (waveform : String) (freq duration amp : ℚ)
    (samplig_freq : ℚ) : Except PyError (List ℝ) :=
  let time : List ℚ :=
    (List.range (⌈samplig_freq * duration⌉).toNat).map
      (fun (i : ℕ) => (i : ℚ) / samplig_freq)
  ((given_waveform waveform) time freq).map
    (fun ys => ys.map (fun (x : ℝ) => x * (amp : ℝ)))

/-- Python zip over four lists: stops at the shortest. -/
def zip4 {α β γ δ : Type} :
    List α → List β → List γ → List δ → List (α × β × γ × δ)
  | a :: as, b :: bs, c :: cs, d :: ds => (a, b, c, d) :: zip4 as bs cs ds
  | _, _, _, _ => []

/-- wave.frequency_sweep with the parameters already given as lists (the
source only broadcasts scalars that are Python floats; list arguments are
zipped directly). The source unpacks
zip(freqs_to_sweep, amplitude, duration_per_freq, silence_between_freq)
as (freq, duration, amp, silence), so the variable duration is bound to
the amplitude entry and the variable amp to the duration entry, and the
call function_creator(waveform, freq, duration, amp, sampling_freq)
forwards them in that swapped role. The silence entry, fourth component
of the tuple, is never used: no silence block is ever yielded. -/
def frequency_sweep
    (freqs_to_sweep amplitude duration_per_freq silence_between_freq :
      List ℚ) (waveform : String) (sampling_freq : ℚ) :
    List (Except PyError (List ℝ)) :=
  (zip4 freqs_to_sweep amplitude duration_per_freq silence_between_freq).map
    (fun fads =>
      function_creator waveform fads.1 fads.2.1 fads.2.2.1 sampling_freq)

end WavePy

/-- Modelled from the spec: the interleaved sample order the encoder is
specified to produce, frame 0 channel 0, frame 0 channel 1, frame 1
channel 0, and so on, for a two-channel block given as its two channel
rows. -/
def interleave : List ℝ → List ℝ → List ℝ
  | a :: as, b :: bs => a :: b :: interleave as bs
  | _, _ => []

/-- Modelled from the spec: the decoder for a two-channel encoded stream
groups the samples into frames of two. The repository has no decoder; the
round-trip sentence of the spec defines it as the inverse reading of the
interleaved layout. -/
def chunk2 : List ℝ → List (List ℝ)
  | a :: b :: rest => [a, b] :: chunk2 rest
  | [] => []
  | [a] => [[a]]

/-- Modelled from the spec: decoding a two-channel encoded stream reads
consecutive frames of two samples and transposes them back into channel
rows. -/
def decode (samples : List ℝ) : List (List ℝ) :=
  np_transpose (chunk2 samples)

/-- Concrete 400 Hz amplitude-1 sine descriptor, the repository default. -/
def sine400 : Wave := Wave.init "sine" 400 1 none

/-- Concrete 200 Hz amplitude-1 sine descriptor. -/
def sine200 : Wave := Wave.init "sine" 200 1 none

/-- On a block of two equal-length channel rows, np_transpose produces the
list of frames, each frame pairing the two channel samples of one
instant. -/
theorem np_transpose_two (r0 r1 : List ℝ) (h : r0.length = r1.length) :
    np_transpose [r0, r1] = r0.zipWith (fun a b => [a, b]) r1 := by
  have aux : ∀ (n : ℕ) (x y : List ℝ), x.length = n → y.length = n →
      (List.range n).map (fun i => [x.getD i 0, y.getD i 0]) =
        x.zipWith (fun a b => [a, b]) y := by
    intro n
    induction n with
    | zero =>
      intro x y hx hy
      rw [List.length_eq_zero] at hx hy
      subst hx; subst hy; rfl
    | succ n ih =>
      intro x y hx hy
      cases x with
      | nil => simp at hx
      | cons a as =>
        cases y with
        | nil => simp at hy
        | cons b bs =>
          simp only [List.length_cons, Nat.succ.injEq] at hx hy
          rw [List.range_succ_eq_map, List.map_cons, List.map_map]
          simp only [List.getD_cons_zero, Function.comp,
            List.getD_cons_succ, List.zipWith_cons_cons]
          exact congrArg _ (ih as bs hx hy)
  simp only [np_transpose, List.headI, List.map_cons, List.map_nil]
  exact aux r0.length r0 r1 rfl h.symm

/-- Flattening the frame list of two channel rows and narrowing each
sample elementwise gives the interleaved narrowed rows. -/
theorem flatten_zipWith_map (narrow : ℝ → ℝ) (x : List ℝ) : ∀ (y : List ℝ),
    ((x.zipWith (fun a b => [a, b]) y).flatten).map narrow =
      interleave (x.map narrow) (y.map narrow) := by
  induction x with
  | nil => intro y; simp [interleave]
  | cons a as ih =>
    intro y
    cases y with
    | nil => simp [interleave]
    | cons b bs => simp [interleave, ih bs]

/-- Grouping an interleaved stream of two equal-length rows back into
frames of two recovers the frame list. -/
theorem chunk2_interleave (x : List ℝ) : ∀ (y : List ℝ),
    x.length = y.length →
      chunk2 (interleave x y) = x.zipWith (fun a b => [a, b]) y := by
  induction x with
  | nil =>
    intro y h
    have hy : y = [] := by cases y <;> simp_all
    subst hy; rfl
  | cons a as ih =>
    intro y h
    cases y with
    | nil => simp at h
    | cons b bs =>
      simp only [List.length_cons, Nat.succ.injEq] at h
      simp [interleave, chunk2, ih bs h]

/-- First components of the frame list of two equal-length rows. -/
theorem zipWith_map_getD_zero (x : List ℝ) : ∀ (y : List ℝ),
    x.length = y.length →
      (x.zipWith (fun a b => [a, b]) y).map (fun r => r.getD 0 0) = x := by
  induction x with
  | nil => intro y h; simp
  | cons a as ih =>
    intro y h
    cases y with
    | nil => simp at h
    | cons b bs =>
      simp only [List.length_cons, Nat.succ.injEq] at h
      simp only [List.zipWith_cons_cons, List.map_cons,
        List.getD_cons_zero]
      rw [ih bs h]

/-- Second components of the frame list of two equal-length rows. -/
theorem zipWith_map_getD_one (x : List ℝ) : ∀ (y : List ℝ),
    x.length = y.length →
      (x.zipWith (fun a b => [a, b]) y).map (fun r => r.getD 1 0) = y := by
  induction x with
  | nil =>
    intro y h
    have hy : y = [] := by cases y <;> simp_all
    subst hy; simp
  | cons a as ih =>
    intro y h
    cases y with
    | nil => simp at h
    | cons b bs =>
      simp only [List.length_cons, Nat.succ.injEq] at h
      simp only [List.zipWith_cons_cons, List.map_cons,
        List.getD_cons_succ, List.getD_cons_zero]
      rw [ih bs h]

/-- Transposing the frame list of two equal-length nonempty rows recovers
the block of channel rows. -/
theorem np_transpose_zipWith (x y : List ℝ) (h : x.length = y.length)
    (hne : x ≠ []) :
    np_transpose (x.zipWith (fun a b => [a, b]) y) = [x, y] := by
  cases x with
  | nil => exact absurd rfl hne
  | cons a as =>
    cases y with
    | nil => simp at h
    | cons b bs =>
      have hlen : (((a :: as).zipWith (fun a b => [a, b])
          (b :: bs)).headI).length = 2 := by simp
      rw [np_transpose, hlen]
      have hr : List.range 2 = [0, 1] := rfl
      rw [hr, List.map_cons, List.map_cons, List.map_nil,
        zipWith_map_getD_zero (a :: as) (b :: bs) h,
        zipWith_map_getD_one (a :: as) (b :: bs) h]

/-- C1: evaluating write_generator on an unbounded (duration None) session
for the 400 Hz sine at sampling rate 44100, buffer size 1024, one channel:
the generator yields no buffer at all and raises a TypeError on the first
pull, instead of producing the phase-continuous buffers the claim
describes. The chunk count is len(signal) // buffer_size with len(signal)
equal to the channel count, so yield_a_bit yields nothing, and the
np.append call of the loop is passed a single tuple argument. -/
theorem c1_continuous_stream_crashes :
    write_generator ⟨44100, 1024, 1⟩ (.single sine400) none 100 =
      ([], some PyError.typeError) := rfl

/-- C2: evaluating write_generator on a bounded session of duration 1 s
(claimed to produce exactly ceil(44100 / 1024) = 44 buffers): the guard
duration < len(signal) / self.sampling_frequency accesses the undefined
attribute sampling_frequency, so the generator raises an AttributeError
before yielding a single buffer. -/
theorem c2_bounded_stream_crashes :
    write_generator ⟨44100, 1024, 1⟩ (.single sine400) (some 1) 100 =
      ([], some PyError.attributeError) := rfl

/-- C3: evaluating write_generator on the concrete session of the claim,
400 Hz sine, amplitude 1, sampling rate 44100, buffer size 1024, bounded
duration 1024/44100 s: instead of the claimed single buffer of 1024 sine
samples, the generator raises an AttributeError (undefined attribute
sampling_frequency) before yielding anything. -/
theorem c3_concrete_scenario_crashes :
    write_generator ⟨44100, 1024, 1⟩ (.single sine400)
      (some (1024 / 44100)) 100 = ([], some PyError.attributeError) := rfl

/-- C4: evaluating write_generator on a bounded session of duration 0:
instead of the claimed empty sequence without error, the generator raises
an AttributeError (undefined attribute sampling_frequency) on the first
pull. -/
theorem c4_zero_duration_crashes :
    write_generator ⟨44100, 1024, 1⟩ (.single sine400) (some 0) 100 =
      ([], some PyError.attributeError) := rfl

/-- C5: channel resolution. A single descriptor with 2 requested channels
is duplicated into both channels, as claimed; but a pair of descriptors
with 1 requested channel is returned unchanged as the full 2-tuple, not
reduced to a 1-tuple of its first element: the reducing branch of the
nchannels == 1 case only fires for non-tuple input (and its warning text
describes the tuple case), and a tuple falls through to return wave. -/
theorem c5_resolve_nchannels_pair_kept :
    resolve_nchannels ⟨44100, 1024, 2⟩ (.single sine400) =
      [sine400, sine400] ∧
    resolve_nchannels ⟨44100, 1024, 1⟩ (.pair sine400 sine200) =
      [sine400, sine200] := ⟨rfl, rfl⟩

/-- C6 (counterexample): on the frames-by-channels block [[1, 2], [3, 4]]
(frame 0 = [1, 2], frame 1 = [3, 4]) with 2 channels, the claim says the
encoder emits [1, 2, 3, 4]; the code transposes the block and emits
[1, 3, 2, 4] instead, because its input convention is channels-by-frames.
The narrowing is the identity here: the values 1..4 are exactly
representable in the 32-bit float format. -/
theorem c6_counterexample :
    encode ⟨44100, 1024, 2⟩ id [[(1 : ℝ), 2], [3, 4]] ≠ [1, 2, 3, 4] := by
  have e : encode ⟨44100, 1024, 2⟩ id [[(1 : ℝ), 2], [3, 4]] =
      [1, 3, 2, 4] := rfl
  rw [e]
  intro hc
  have h2 := (List.cons.injEq _ _ _ _).mp hc
  have h3 := (List.cons.injEq _ _ _ _).mp h2.2
  exact absurd h3.1 (by norm_num)

/-- C6 (amended): the encoder receives the two-channel block in
channels-by-frames orientation, as produced by eval_wave; it transposes
the block, so the emitted sample stream is frame-major interleaved
(frame 0 channel 0, frame 0 channel 1, frame 1 channel 0, ...), each
sample narrowed elementwise to the fixed-width floating format; decoding
the encoded stream recovers the narrowed block, that is, the original
block within the format's precision. -/
theorem c6_encode_roundtrip (narrow : ℝ → ℝ) (r0 r1 : List ℝ)
    (h : r0.length = r1.length) (hne : r0 ≠ []) :
    encode ⟨44100, 1024, 2⟩ narrow [r0, r1] =
      interleave (r0.map narrow) (r1.map narrow) ∧
    decode (encode ⟨44100, 1024, 2⟩ narrow [r0, r1]) =
      [r0.map narrow, r1.map narrow] := by
  have henc : encode ⟨44100, 1024, 2⟩ narrow [r0, r1] =
      interleave (r0.map narrow) (r1.map narrow) := by
    show ((np_transpose [r0, r1]).flatten).map narrow = _
    rw [np_transpose_two r0 r1 h, flatten_zipWith_map]
  refine ⟨henc, ?_⟩
  rw [henc, decode, chunk2_interleave _ _ (by simp [h]),
    np_transpose_zipWith _ _ (by simp [h]) (by simpa using hne)]

/-- C6 (witness): the amended round-trip at the concrete channel-major
block with rows [1, 2] and [3, 4]. -/
theorem c6_encode_roundtrip_witness :
    encode ⟨44100, 1024, 2⟩ id [[(1 : ℝ), 2], [3, 4]] =
      interleave ([(1 : ℝ), 2].map id) ([(3 : ℝ), 4].map id) ∧
    decode (encode ⟨44100, 1024, 2⟩ id [[(1 : ℝ), 2], [3, 4]]) =
      [[(1 : ℝ), 2].map id, [(3 : ℝ), 4].map id] :=
  c6_encode_roundtrip id [1, 2] [3, 4] rfl (by simp)

/-- C7 (counterexample): constructing a Wave with the unrecognized name
"blah" does not raise: the constructor completes, its fields are
populated (the waveform field holds the wrong_input raiser), and the
typed error only surfaces when evaluate is first called. -/
theorem c7_counterexample :
    (Wave.init "blah" 400 1 none).frequency = 400 ∧
    (Wave.init "blah" 400 1 none).waveform = wrong_input ∧
    Wave.evaluate (Wave.init "blah" 400 1 none) [0] =
      .error PyError.typeError :=
  ⟨rfl, rfl, rfl⟩

/-- C7 (amended): for every waveform name outside the recognized set, the
switcher returns the wrong_input raiser and construction succeeds without
error; the wave never silently behaves as a default waveform, because its
first evaluation, on any time vector, raises the typed TypeError. -/
theorem c7_deferred_invalid_waveform (s : String) (f a : ℚ) (t : List ℚ)
    (h : s ∉ (["sine", "sawtoothup", "sawtoothdown", "ramp", "sawtooth",
      "triangular", "square", "custom"] : List String)) :
    (Wave.init s f a none).frequency = f ∧
    Wave.evaluate (Wave.init s f a none) t =
      .error PyError.typeError := by
  refine ⟨rfl, ?_⟩
  simp only [List.mem_cons, List.not_mem_nil, or_false, not_or] at h
  obtain ⟨h1, h2, h3, h4, h5, h6, h7, h8⟩ := h
  simp [Wave.evaluate, Wave.init, given_waveform, wrong_input, Except.map,
    h1, h2, h3, h4, h5, h6, h7, h8]

/-- C7 (witness): the amended statement at the concrete name "blah". -/
theorem c7_deferred_invalid_waveform_witness :
    (Wave.init "blah" 400 1 none).frequency = 400 ∧
    Wave.evaluate (Wave.init "blah" 400 1 none) [0] =
      .error PyError.typeError :=
  c7_deferred_invalid_waveform "blah" 400 1 [0] (by decide)

/-- C8 (counterexample): constructing a sine descriptor with the
non-positive frequency -1 is not rejected: the constructor stores the
frequency unchanged and the descriptor even evaluates without error. -/
theorem c8_counterexample :
    (Wave.init "sine" (-1) 1 none).frequency = -1 ∧
    Wave.evaluate (Wave.init "sine" (-1) 1 none) [0] = .ok [0] := by
  refine ⟨rfl, ?_⟩
  simp [Wave.evaluate, Wave.init, given_waveform, create_sine, Except.map]

/-- C8 (amended): the constructor performs no frequency validation: for
every non-positive frequency the construction succeeds, stores the
frequency unchanged, and sine evaluation still succeeds on every time
vector (one sample per instant), so no error is raised at construction
nor at evaluation. -/
theorem c8_no_frequency_validation (f a : ℚ) (h : f ≤ 0) (t : List ℚ) :
    (Wave.init "sine" f a none).frequency = f ∧
    ∃ ys, Wave.evaluate (Wave.init "sine" f a none) t = .ok ys ∧
      ys.length = t.length := by
  refine ⟨rfl,
    (t.map (fun (τ : ℚ) => Real.sin (2 * Real.pi * (τ : ℝ) * (f : ℝ)))).map
      (fun (x : ℝ) => x * (a : ℝ)), by rfl, by simp⟩

/-- C8 (witness): the amended statement at frequency -2. -/
theorem c8_no_frequency_validation_witness :
    (Wave.init "sine" (-2) 1 none).frequency = -2 ∧
    ∃ ys, Wave.evaluate (Wave.init "sine" (-2) 1 none) [0] = .ok ys ∧
      ys.length = [(0 : ℚ)].length :=
  c8_no_frequency_validation (-2) 1 (by norm_num) [0]

/-- C9: the concrete sweep over the single frequency 100 Hz with
duration 1 s, amplitude 1 and a requested positive silence of 1 s at
sampling rate 17000: the driver yields exactly one buffer sequence
in total, namely the tone itself (nonzero, for instance, at sample 42),
and never yields the claimed all-zero silence sequence, because the
silence value is bound by the loop but never used. -/
theorem c9_sweep_yields_no_silence :
    (WavePy.frequency_sweep [100] [1] [1] [1] "sine" 17000).length = 1 ∧
    ∃ ys, (WavePy.frequency_sweep [100] [1] [1] [1] "sine" 17000).headI =
        .ok ys ∧ ys.getD 42 0 ≠ 0 := by
  refine ⟨rfl,
    (((List.range ((⌈(17000 : ℚ) * 1⌉).toNat)).map
        (fun (i : ℕ) => ((i : ℚ) / 17000 : ℚ))).map
      (fun (τ : ℚ) => Real.sin (2 * Real.pi * (τ : ℝ) * ((100 : ℚ) : ℝ)))).map
      (fun (x : ℝ) => x * ((1 : ℚ) : ℝ)), by rfl, ?_⟩
  have hceil : ((⌈(17000 : ℚ) * 1⌉).toNat) = 17000 := by
    have h1 : (⌈(17000 : ℚ) * 1⌉) = 17000 := by norm_num
    rw [h1]
    rfl
  rw [hceil, List.getD_eq_getElem?_getD, List.getElem?_map,
    List.getElem?_map, List.getElem?_map,
    List.getElem?_range (by norm_num : (42 : ℕ) < 17000)]
  simp only [Option.map_some', Option.getD_some]
  push_cast
  rw [mul_one]
  have harg : 2 * Real.pi * ((42 : ℝ) / 17000) * 100 =
      (42 / 85) * Real.pi := by ring
  rw [harg]
  refine ne_of_gt (Real.sin_pos_of_pos_of_lt_pi (by positivity) ?_)
  have hlt : ((42 : ℝ) / 85) * Real.pi < 1 * Real.pi :=
    mul_lt_mul_of_pos_right (by norm_num) Real.pi_pos
  simpa using hlt

/-- C10: wave evaluation is homogeneous in the amplitude attribute:
evaluating a descriptor equals, error for error and sample for sample,
the amplitude times the evaluation of the same descriptor with amplitude
one; and whenever an amplitude-0 descriptor evaluates successfully, the
resulting samples are all zero. -/
theorem c10_amplitude_homogeneity (w : Wave) (t : List ℚ) :
    Wave.evaluate w t =
      (Wave.evaluate { w with amplitude := 1 } t).map
        (fun ys => ys.map (fun x => (w.amplitude : ℝ) * x)) ∧
    (w.amplitude = 0 → ∀ ys, Wave.evaluate w t = .ok ys →
      ys = List.replicate ys.length 0) := by
  constructor
  · cases hw : w.waveform t w.frequency with
    | error e => simp [Wave.evaluate, hw, Except.map]
    | ok zs =>
      simp only [Wave.evaluate, hw, Except.map]
      congr 1
      rw [List.map_map]
      have hfun : ((fun x => ((w.amplitude : ℚ) : ℝ) * x) ∘
          (fun x : ℝ => x * (((1 : ℚ) : ℚ) : ℝ))) =
          (fun x : ℝ => x * ((w.amplitude : ℚ) : ℝ)) := by
        funext x
        simp only [Function.comp_apply]
        push_cast
        ring
      rw [hfun]
  · intro h0 ys hys
    cases hw : w.waveform t w.frequency with
    | error e =>
      simp only [Wave.evaluate, hw, Except.map] at hys
      exact Except.noConfusion hys
    | ok zs =>
      simp only [Wave.evaluate, hw, Except.map, Except.ok.injEq] at hys
      subst hys
      simp [h0, List.eq_replicate_iff]

/-- C10 (witness): the zero-amplitude consequence at the concrete
amplitude-0 sine descriptor evaluated at time 0. -/
theorem c10_amplitude_homogeneity_witness :
    [Real.sin (2 * Real.pi * ((0 : ℚ) : ℝ) * ((400 : ℚ) : ℝ)) *
        ((0 : ℚ) : ℝ)] =
      List.replicate
        (List.length [Real.sin (2 * Real.pi * ((0 : ℚ) : ℝ) *
          ((400 : ℚ) : ℝ)) * ((0 : ℚ) : ℝ)]) (0 : ℝ) :=
  (c10_amplitude_homogeneity (Wave.init "sine" 400 0 none) [0]).2 rfl _ rfl

end
